import Mathlib

/-!
Shallow embedding of the multi-tenant SaaS backend
(auth registration, tenant usage metering, AI gateway, Stripe billing
reconciliation, webhook handling) and proofs about the behaviour its
specification claims.

Conventions of the embedding:
* TypeScript strings are Lean `String`s (sequences of characters; the
  JavaScript string functions used by the sources are ASCII-faithful here).
* Database tables are Lean lists of row structures; `prisma.x.findUnique` is
  `List.find?`, `update` maps the matched rows, `create` conses/appends.
* Stateful service methods are state-passing functions
  `Db → (Except ApiError α) × Db`; a thrown exception is `Except.error`.
  Exceptions do not roll back prior writes, except inside the explicit
  `$transaction` of `register`, whose all-or-nothing behaviour is modelled by
  returning the original database on every failure path.
* The external OpenAI call outcome is a parameter (`ExtOutcome`), as are the
  fresh UUIDs and wall-clock durations the code obtains from its environment.
-/

/-! ## JavaScript string primitives used by the sources -/

/-- `isPrefixL p l` is true when `p` is an initial segment of `l`. -/
def isPrefixL : List Char → List Char → Bool
  | [], _ => true
  | _ :: _, [] => false
  | a :: as, b :: bs => a == b && isPrefixL as bs

/-- `containsL pat l`: `pat` occurs as a contiguous sublist of `l`
(JavaScript `String.prototype.includes`). -/
def containsL (pat : List Char) : List Char → Bool
  | [] => pat.isEmpty
  | c :: rest => isPrefixL pat (c :: rest) || containsL pat rest

/-- `s.includes(pat)` of JavaScript. -/
def strContains (s pat : String) : Bool :=
  containsL pat.toList s.toList

/-- JavaScript `x || d` for numbers: `0` is falsy and falls back to `d`. -/
def jsOrNat (o : Option Nat) (d : Nat) : Nat :=
  match o with
  | none => d
  | some n => if n == 0 then d else n

/-- JavaScript truthiness of an optional string (`undefined`/`''` are falsy). -/
def jsTruthyStr (o : Option String) : Bool :=
  match o with
  | none => false
  | some s => !s.isEmpty

/-- The ASCII whitespace class of the `\s` regex character class and of
`String.prototype.trim`. -/
def isSpaceJs (c : Char) : Bool :=
  c == ' ' || c == '\t' || c == '\n' || c == '\r' || c == '\x0b' || c == '\x0c'

/-! ## Slug derivation (`AuthService.generateSlug`) -/

/-- Character class kept by the `replace(/[^a-z0-9\s-]/g, '')` strip
(applied after lowercasing). -/
def isSlugKeep (c : Char) : Bool :=
  ('a' ≤ c && c ≤ 'z') || ('0' ≤ c && c ≤ '9') || isSpaceJs c || c == '-'

/-- Character class of the `[\s-]` collapsing regex. -/
def isSpaceDash (c : Char) : Bool :=
  isSpaceJs c || c == '-'

/-- `name.toLowerCase()` on the character list. -/
def lowerJs (l : List Char) : List Char := l.map Char.toLower

/-- `replace(/[^a-z0-9\s-]/g, '')`. -/
def stripJs (l : List Char) : List Char := l.filter isSlugKeep

/-- `String.prototype.trim` (whitespace removed from both ends). -/
def trimJs (l : List Char) : List Char :=
  ((l.dropWhile isSpaceJs).reverse.dropWhile isSpaceJs).reverse

/-- Global regex replace of each maximal run of characters satisfying `p` by a
single `'-'`; the flag records whether the previous character was inside a run
already replaced. -/
def collapseAux (p : Char → Bool) : Bool → List Char → List Char
  | _, [] => []
  | inRun, c :: cs =>
    if p c then
      if inRun then collapseAux p true cs else '-' :: collapseAux p true cs
    else c :: collapseAux p false cs

/-- `replace(/[\s-]+/g, '-')`. -/
def collapseRuns (l : List Char) : List Char := collapseAux isSpaceDash false l

/-- `AuthService.generateSlug`: lowercase, strip characters outside
`[a-z0-9\s-]`, trim, collapse `[\s-]+` runs to `'-'`, `substring(0, 50)`. -/
def generateSlug (name : String) : String :=
  ⟨(collapseRuns (trimJs (stripJs (lowerJs name.toList)))).take 50⟩

/-- The slug pipeline exactly as the claim words it: lowercase, strip
non-alphanumeric/space/hyphen, collapse whitespace (only) runs to hyphens,
truncate to 50 characters — with no trimming and no collapsing of hyphen
runs. Used to compare the claim with `generateSlug`. -/
def slugSpecClaim (name : String) : String :=
  ⟨(collapseAux isSpaceJs false (stripJs (lowerJs name.toList))).take 50⟩

/-- One step of the declarative collapse: a separator character contributes a
hyphen only when the text to its right did not already start with one. -/
def collapseSpecStep (c : Char) (acc : List Char) : List Char :=
  if isSpaceDash c then
    (if acc.head? == some '-' then acc else '-' :: acc)
  else c :: acc

/-- Declarative rendering of "each run of whitespace or hyphens collapses to a
single hyphen", as a right fold. -/
def collapseSpec (l : List Char) : List Char := l.foldr collapseSpecStep []

/-- The amended slug specification: lowercase, strip characters other than
lowercase alphanumerics, whitespace and hyphens, trim surrounding whitespace,
collapse each run of whitespace or hyphens to a single hyphen, truncate to at
most 50 characters. -/
def slugSpecAmended (name : String) : String :=
  ⟨(collapseSpec (trimJs (stripJs (lowerJs name.toList)))).take 50⟩

/-! ## Shared types (`@ai-saas/shared-types`) -/

/-- `BillingPlan`. -/
inductive BillingPlan
  | free | starter | pro | enterprise
deriving DecidableEq, Repr

/-- `UserRole`. -/
inductive UserRole
  | admin | user
deriving DecidableEq, Repr

/-- `AiServiceType`. -/
inductive AiServiceType
  | text_summarization | document_qa | text_generation | sentiment_analysis
deriving DecidableEq, Repr

/-- `AiRequestStatus`. -/
inductive AiRequestStatus
  | pending | processing | completed | failed
deriving DecidableEq, Repr

/-- `AI_SERVICE_CREDITS`. -/
def AI_SERVICE_CREDITS : AiServiceType → Nat
  | .text_summarization => 2
  | .document_qa => 3
  | .text_generation => 5
  | .sentiment_analysis => 1

/-- `PlanFeatures` (fields used by the services). -/
structure PlanFeatures where
  aiCreditsPerMonth : Nat
  apiRequestsPerMinute : Nat
  maxTeamMembers : Nat
  customBranding : Bool
  prioritySupport : Bool
  advancedAnalytics : Bool
deriving DecidableEq, Repr

/-- `PLAN_FEATURES`. -/
def PLAN_FEATURES : BillingPlan → PlanFeatures
  | .free => ⟨100, 10, 1, false, false, false⟩
  | .starter => ⟨1000, 50, 5, false, false, true⟩
  | .pro => ⟨10000, 200, 25, true, true, true⟩
  | .enterprise => ⟨100000, 1000, 100, true, true, true⟩

/-- `TenantSettings` (`customBranding` is never read by the verified services
and is omitted). -/
structure TenantSettings where
  aiCreditsLimit : Option Nat
  apiRateLimit : Option Nat
deriving DecidableEq, Repr

/-! ## Database rows -/

/-- A `Tenant` row. -/
structure TenantRow where
  id : String
  name : String
  slug : String
  plan : BillingPlan
  isActive : Bool
  settings : TenantSettings
deriving DecidableEq, Repr

/-- A `User` row. -/
structure UserRow where
  id : String
  email : String
  name : String
  password : String
  role : UserRole
  tenantId : String
  isActive : Bool
  avatar : Option String
deriving DecidableEq, Repr

/-- A `TeamMember` row. -/
structure TeamMemberRow where
  id : String
  userId : String
  tenantId : String
  role : UserRole
  invitedBy : String
deriving DecidableEq, Repr

/-- A `Subscription` row.  `status` is kept as the literal string the services
write (`register` writes `"ACTIVE"`, the webhook reconcilers write the
lower-case `SubscriptionStatus` enum values). -/
structure SubscriptionRow where
  id : String
  tenantId : String
  stripeCustomerId : Option String
  stripeSubscriptionId : Option String
  plan : BillingPlan
  status : String
  currentPeriodStart : Nat
  currentPeriodEnd : Nat
  cancelAtPeriodEnd : Bool
deriving DecidableEq, Repr

/-- A `Usage` row (per tenant and `YYYY-MM` month). -/
structure UsageRow where
  tenantId : String
  month : String
  aiCreditsUsed : Nat
  apiRequestsCount : Nat
deriving DecidableEq, Repr

/-- The input stored on an `AiRequest` row; the `JSON.stringify` serialization
is abstracted to the request value itself. -/
inductive AiInput
  | summ (text : String) (maxLength : Option Nat) (style : Option String)
  | qa (documentText question : String) (context : Option String)
deriving DecidableEq, Repr

/-- An `AiRequest` row. -/
structure AiRequestRow where
  id : String
  tenantId : String
  userId : String
  type : AiServiceType
  input : AiInput
  output : Option String
  status : AiRequestStatus
  creditsUsed : Nat
  processingTimeMs : Option Nat
  errorMessage : Option String
deriving DecidableEq, Repr

/-- Modelled from the spec: the Prisma schema declaring the `WebhookEvent`
table is not among the sources; per the spec's data-model table —
"WebhookEvent | id, type, payload, processed(bool) | idempotency key =
provider event id | created on receipt; marked processed after successful
dispatch" — the row is keyed by the provider (Stripe) event id and the
`processed` flag starts out false when the row is created on receipt. -/
structure WebhookEventRow where
  id : String
  type : String
  data : String
  processed : Bool
deriving DecidableEq, Repr

/-- The relational store. -/
structure Db where
  tenants : List TenantRow
  users : List UserRow
  teamMembers : List TeamMemberRow
  subscriptions : List SubscriptionRow
  usages : List UsageRow
  aiRequests : List AiRequestRow
  webhookEvents : List WebhookEventRow
deriving DecidableEq, Repr

/-- The exception taxonomy surfaced by the services; `db` stands for an error
raised by the ORM itself (a Prisma "record to update not found"), `internal`
for a plain `Error`. -/
inductive ApiError
  | unauthorized (msg : String)
  | conflict (msg : String)
  | forbidden (msg : String)
  | notFound (msg : String)
  | paymentRequired (msg : String)
  | badRequest (msg : String)
  | db (msg : String)
  | internal (msg : String)
deriving DecidableEq, Repr

/-! ## Lookups (`prisma.x.findUnique`) -/

/-- `prisma.tenant.findUnique({ where: { id } })`. -/
def findTenant (db : Db) (id : String) : Option TenantRow :=
  db.tenants.find? (fun t => t.id == id)

/-- `prisma.tenant.findUnique({ where: { slug } })`. -/
def findTenantBySlug (db : Db) (slug : String) : Option TenantRow :=
  db.tenants.find? (fun t => t.slug == slug)

/-- `prisma.user.findUnique({ where: { id } })`. -/
def findUser (db : Db) (id : String) : Option UserRow :=
  db.users.find? (fun u => u.id == id)

/-- `prisma.user.findUnique({ where: { email } })`. -/
def findUserByEmail (db : Db) (email : String) : Option UserRow :=
  db.users.find? (fun u => u.email == email)

/-- `prisma.usage.findUnique({ where: { tenantId_month } })`. -/
def findUsage (db : Db) (tenantId month : String) : Option UsageRow :=
  db.usages.find? (fun u => u.tenantId == tenantId && u.month == month)

/-- `prisma.aiRequest.findUnique({ where: { id } })`. -/
def findAiRequest (db : Db) (id : String) : Option AiRequestRow :=
  db.aiRequests.find? (fun r => r.id == id)

/-- `prisma.subscription.findUnique({ where: { tenantId } })`. -/
def findSubscriptionByTenant (db : Db) (tenantId : String) : Option SubscriptionRow :=
  db.subscriptions.find? (fun s => s.tenantId == tenantId)

/-- `prisma.subscription.findUnique({ where: { stripeSubscriptionId } })`. -/
def findSubscriptionByStripeId (db : Db) (sid : String) : Option SubscriptionRow :=
  db.subscriptions.find? (fun s => s.stripeSubscriptionId == some sid)

/-- `prisma.webhookEvent` lookup by (provider) event id. -/
def findWebhookEvent (db : Db) (id : String) : Option WebhookEventRow :=
  db.webhookEvents.find? (fun e => e.id == id)

/-! ## Tenants service (`TenantsService`) -/

/-- The value `TenantsService.getTenantUsage` resolves with. -/
structure TenantUsage where
  currentMonth : String
  aiCreditsUsed : Nat
  apiRequestsCount : Nat
  aiCreditsLimit : Nat
  apiRateLimit : Nat
deriving DecidableEq, Repr

/-- `TenantsService.getTenantUsage`: look up the tenant (404 when absent),
read the current-month usage row, and apply the `|| 0` / `|| 100` / `|| 10`
fallbacks of the source.  `month` stands for
`new Date().toISOString().slice(0, 7)`. -/
def getTenantUsage (db : Db) (month id : String) : Except ApiError TenantUsage :=
  match findTenant db id with
  | none => .error (.notFound "Tenant not found")
  | some tenant =>
    let usage := findUsage db id month
    .ok
      { currentMonth := month
        aiCreditsUsed := jsOrNat (usage.map (·.aiCreditsUsed)) 0
        apiRequestsCount := jsOrNat (usage.map (·.apiRequestsCount)) 0
        aiCreditsLimit := jsOrNat tenant.settings.aiCreditsLimit 100
        apiRateLimit := jsOrNat tenant.settings.apiRateLimit 10 }

/-- `TenantsService.incrementUsage`: upsert on `(tenantId, month)`, adding
`aiCredits` and `apiRequests` to the counters (creating the row with exactly
those values when the month has no row yet). -/
def incrementUsage (db : Db) (month tenantId : String) (aiCredits apiRequests : Nat) : Db :=
  match findUsage db tenantId month with
  | some _ =>
    { db with
        usages := db.usages.map (fun u =>
          if u.tenantId == tenantId && u.month == month then
            { u with
                aiCreditsUsed := u.aiCreditsUsed + aiCredits
                apiRequestsCount := u.apiRequestsCount + apiRequests }
          else u) }
  | none =>
    { db with
        usages := db.usages ++
          [{ tenantId := tenantId, month := month
             aiCreditsUsed := aiCredits, apiRequestsCount := apiRequests }] }

/-- `TenantsService.updatePlan`: 404 when the tenant does not exist, otherwise
set its `plan`. -/
def updatePlan (db : Db) (id : String) (plan : BillingPlan) :
    Except ApiError Unit × Db :=
  match findTenant db id with
  | none => (.error (.notFound "Tenant not found"), db)
  | some _ =>
    (.ok (),
      { db with
          tenants := db.tenants.map (fun t =>
            if t.id == id then { t with plan := plan } else t) })

/-- `TenantsService.updateSettings`: 404 when the tenant does not exist,
otherwise replace its `settings` object. -/
def updateSettings (db : Db) (id : String) (settings : TenantSettings) :
    Except ApiError Unit × Db :=
  match findTenant db id with
  | none => (.error (.notFound "Tenant not found"), db)
  | some _ =>
    (.ok (),
      { db with
          tenants := db.tenants.map (fun t =>
            if t.id == id then { t with settings := settings } else t) })

/-! ## AI gateway (`AiService`) -/

/-- Outcome of the external `openai.chat.completions.create` call:
either it resolves (with `choices[0]?.message?.content`, possibly absent),
or it rejects with an error whose `message` is recorded. -/
inductive ExtOutcome
  | success (content : Option String)
  | failure (msg : String)
deriving DecidableEq, Repr

/-- `AiService.checkCredits`: fetch the usage snapshot and fail with 402 when
`used + required > limit`. -/
def checkCredits (db : Db) (month tenantId : String) (creditsRequired : Nat) :
    Except ApiError Unit :=
  match getTenantUsage db month tenantId with
  | .error e => .error e
  | .ok usage =>
    if usage.aiCreditsUsed + creditsRequired > usage.aiCreditsLimit then
      .error (.paymentRequired "Insufficient AI credits. Please upgrade your plan.")
    else
      .ok ()

/-- Update of the `AiRequest` row matched by `id`. -/
def updateAiRequestRow (db : Db) (id : String) (f : AiRequestRow → AiRequestRow) : Db :=
  { db with
      aiRequests := db.aiRequests.map (fun r => if r.id == id then f r else r) }

/-- `TextSummarizationResponse`. -/
structure TextSummarizationResponse where
  summary : String
  originalLength : Nat
  summaryLength : Nat
  creditsUsed : Nat
deriving DecidableEq, Repr

/-- `AiService.summarizeText`.  `newId` is the fresh `uuidv4()`, `ext` the
outcome of the external model call, `elapsed` the measured wall-clock
duration.  The steps mirror the source: credit check, create the row in
`processing` state with `creditsUsed` already set, call the model; on success
mark the row `completed` and increment tenant usage by the service cost and
one request; on failure mark the row `failed` with the error message and
surface a generic `BadRequest`. -/
def summarizeText (db : Db) (month tenantId userId : String)
    (text : String) (maxLength : Option Nat) (style : Option String)
    (newId : String) (ext : ExtOutcome) (elapsed : Nat) :
    Except ApiError TextSummarizationResponse × Db :=
  let creditsRequired := AI_SERVICE_CREDITS .text_summarization
  match checkCredits db month tenantId creditsRequired with
  | .error e => (.error e, db)
  | .ok () =>
    let row : AiRequestRow :=
      { id := newId, tenantId := tenantId, userId := userId
        type := .text_summarization
        input := .summ text maxLength style
        output := none, status := .processing
        creditsUsed := creditsRequired
        processingTimeMs := none, errorMessage := none }
    let db1 : Db := { db with aiRequests := row :: db.aiRequests }
    match ext with
    | .success content =>
      let summary := content.getD ""
      let db2 := updateAiRequestRow db1 newId (fun r =>
        { r with output := some summary, status := .completed
                 processingTimeMs := some elapsed })
      let db3 := incrementUsage db2 month tenantId creditsRequired 1
      (.ok
        { summary := summary
          originalLength := text.length
          summaryLength := summary.length
          creditsUsed := creditsRequired }, db3)
    | .failure msg =>
      let db2 := updateAiRequestRow db1 newId (fun r =>
        { r with status := .failed, errorMessage := some msg
                 processingTimeMs := some elapsed })
      (.error (.badRequest "Failed to summarize text"), db2)

/-- `AiService.calculateConfidence` (values as rationals). -/
def calculateConfidence (answer : String) : ℚ :=
  if strContains answer "cannot find" || strContains answer "not mentioned" then
    1/10
  else if strContains answer "specifically states" || strContains answer "according to" then
    9/10
  else
    7/10

/-- `sentence.toLowerCase()` check of `extractSourceText`. -/
def strToLowerJs (s : String) : String := ⟨lowerJs s.toList⟩

/-- Keep only the first character of each maximal run of characters
satisfying `p` (helper for splitting on a regex run). -/
def compressSeps (p : Char → Bool) : Bool → List Char → List Char
  | _, [] => []
  | prevSep, c :: cs =>
    if p c then
      (if prevSep then compressSeps p true cs else c :: compressSeps p true cs)
    else c :: compressSeps p false cs

/-- JavaScript `split` where every single character satisfying `p` separates
(empty pieces at boundaries and between adjacent separators are kept, as in
`'a  b'.split(' ') = ['a', '', 'b']`). -/
def splitSingle (p : Char → Bool) : List Char → List (List Char)
  | [] => [[]]
  | c :: cs =>
    if p c then [] :: splitSingle p cs
    else
      match splitSingle p cs with
      | [] => [[c]]
      | piece :: rest => (c :: piece) :: rest

/-- JavaScript `split` on a regex matching runs of characters in `p`
(`document.split(/[.!?]+/)`): a maximal run is one separator. -/
def splitRuns (p : Char → Bool) (l : List Char) : List (List Char) :=
  splitSingle p (compressSeps p false l)

/-- `AiService.extractSourceText`: split the document into sentences on
`[.!?]+`, take the first five space-separated words of the lowercased answer,
and return the first sentence whose lowercasing contains any of them
(trimmed); `undefined` when none matches. -/
def extractSourceText (document answer : String) : Option String :=
  let sentences := splitRuns (fun c => c == '.' || c == '!' || c == '?') document.toList
  let answerWords := (splitSingle (fun c => c == ' ') (lowerJs answer.toList)).take 5
  (sentences.find? (fun s => answerWords.any (fun w => containsL w (lowerJs s)))).map
    (fun s => (⟨trimJs s⟩ : String))

/-- `DocumentQaResponse`. -/
structure DocumentQaResponse where
  answer : String
  confidence : ℚ
  sourceText : Option String
  creditsUsed : Nat
deriving DecidableEq, Repr

/-- `AiService.answerQuestion`: same credit-check / persist / call / update
shape as `summarizeText`, additionally computing the confidence heuristic and
the extracted source text on success. -/
def answerQuestion (db : Db) (month tenantId userId : String)
    (documentText question : String) (context : Option String)
    (newId : String) (ext : ExtOutcome) (elapsed : Nat) :
    Except ApiError DocumentQaResponse × Db :=
  let creditsRequired := AI_SERVICE_CREDITS .document_qa
  match checkCredits db month tenantId creditsRequired with
  | .error e => (.error e, db)
  | .ok () =>
    let row : AiRequestRow :=
      { id := newId, tenantId := tenantId, userId := userId
        type := .document_qa
        input := .qa documentText question context
        output := none, status := .processing
        creditsUsed := creditsRequired
        processingTimeMs := none, errorMessage := none }
    let db1 : Db := { db with aiRequests := row :: db.aiRequests }
    match ext with
    | .success content =>
      let answer := content.getD ""
      let confidence := calculateConfidence answer
      let db2 := updateAiRequestRow db1 newId (fun r =>
        { r with output := some answer, status := .completed
                 processingTimeMs := some elapsed })
      let db3 := incrementUsage db2 month tenantId creditsRequired 1
      (.ok
        { answer := answer
          confidence := confidence
          sourceText := extractSourceText documentText answer
          creditsUsed := creditsRequired }, db3)
    | .failure msg =>
      let db2 := updateAiRequestRow db1 newId (fun r =>
        { r with status := .failed, errorMessage := some msg
                 processingTimeMs := some elapsed })
      (.error (.badRequest "Failed to answer question"), db2)

/-! ## Users service (`UsersService`) -/

/-- The `Partial<User>` update payload handed to `updateUser` (fields the row
model carries; `id` and `tenantId` are never sent by the controller and are
not modelled). -/
structure UserUpdateData where
  name : Option String
  avatar : Option String
  role : Option UserRole
  isActive : Option Bool
  password : Option String
deriving DecidableEq, Repr

/-- Application of a Prisma `update` payload to a `User` row: only the fields
present in the payload are overwritten. -/
def applyUserUpdate (u : UserRow) (d : UserUpdateData) : UserRow :=
  { u with
      name := d.name.getD u.name
      avatar := match d.avatar with | none => u.avatar | some a => some a
      role := d.role.getD u.role
      isActive := d.isActive.getD u.isActive
      password := d.password.getD u.password }

/-- `UsersService.updateUser`: 404 when the user does not exist, 403 on a
cross-tenant target or when a non-admin supplies a role change; otherwise the
`password` field is destructured out of the payload
(`const { password, ...updateData } = data`) and the remaining fields are
written. -/
def updateUser (db : Db) (id tenantId : String) (currentUserRole : UserRole)
    (data : UserUpdateData) : Except ApiError UserRow × Db :=
  match findUser db id with
  | none => (.error (.notFound "User not found"), db)
  | some user =>
    if user.tenantId ≠ tenantId then
      (.error (.forbidden "Cannot update user from different tenant"), db)
    else if data.role.isSome && currentUserRole ≠ .admin then
      (.error (.forbidden "Only admins can change user roles"), db)
    else
      let updateData : UserUpdateData := { data with password := none }
      (.ok (applyUserUpdate user updateData),
        { db with
            users := db.users.map (fun u =>
              if u.id == id then applyUserUpdate u updateData else u) })

/-! ## Auth service (`AuthService.register`) -/

/-- `RegisterRequest`. -/
structure RegisterRequest where
  email : String
  password : String
  name : String
  tenantName : String
deriving DecidableEq, Repr

/-- Fresh `uuidv4()` values drawn by one `register` call. -/
structure RegisterIds where
  tenantId : String
  userId : String
  teamMemberId : String
  subscriptionId : String
deriving DecidableEq, Repr

/-- `AuthService.register`: conflict when the email is taken or the derived
slug collides; otherwise one transaction creates the Tenant (free plan,
default settings), the admin User, the TeamMember record and a 30-day free
Subscription.  `hashedPassword` stands for `bcrypt.hash(password, 12)` and
`now` for `Date.now()` in milliseconds.  Token issuance (an external JWT
library) is not part of the persisted state and is omitted from the returned
value, which carries the created user and tenant as the source's
`AuthResponse` does. -/
def register (db : Db) (req : RegisterRequest) (hashedPassword : String)
    (ids : RegisterIds) (now : Nat) :
    Except ApiError (UserRow × TenantRow) × Db :=
  match findUserByEmail db req.email with
  | some _ => (.error (.conflict "User with this email already exists"), db)
  | none =>
    let tenantSlug := generateSlug req.tenantName
    match findTenantBySlug db tenantSlug with
    | some _ => (.error (.conflict "Organization name is already taken"), db)
    | none =>
      let tenant : TenantRow :=
        { id := ids.tenantId, name := req.tenantName, slug := tenantSlug
          plan := .free, isActive := true
          settings := { aiCreditsLimit := some 100, apiRateLimit := some 10 } }
      let user : UserRow :=
        { id := ids.userId, email := req.email, name := req.name
          password := hashedPassword, role := .admin
          tenantId := tenant.id, isActive := true, avatar := none }
      let member : TeamMemberRow :=
        { id := ids.teamMemberId, userId := user.id, tenantId := tenant.id
          role := .admin, invitedBy := user.id }
      let subscription : SubscriptionRow :=
        { id := ids.subscriptionId, tenantId := tenant.id
          stripeCustomerId := none, stripeSubscriptionId := none
          plan := .free, status := "ACTIVE"
          currentPeriodStart := now
          currentPeriodEnd := now + 30 * 24 * 60 * 60 * 1000
          cancelAtPeriodEnd := false }
      (.ok (user, tenant),
        { db with
            tenants := tenant :: db.tenants
            users := user :: db.users
            teamMembers := member :: db.teamMembers
            subscriptions := subscription :: db.subscriptions })

/-! ## Billing service (`BillingService` webhook reconcilers) -/

/-- A Stripe subscription object as the webhook handlers read it.  The
`metadata.plan` string cast (`as BillingPlan`) is modelled as an
already-parsed optional plan. -/
structure StripeSubscription where
  id : String
  status : String
  current_period_start : Nat
  current_period_end : Nat
  cancel_at_period_end : Bool
  metadataTenantId : Option String
  metadataPlan : Option BillingPlan
deriving DecidableEq, Repr

/-- `BillingService.mapStripeStatus`: the provider status strings map to the
internal enumerated values; unknown strings default to `active`. -/
def mapStripeStatus (stripeStatus : String) : String :=
  match stripeStatus with
  | "active" => "active"
  | "canceled" => "canceled"
  | "incomplete" => "incomplete"
  | "incomplete_expired" => "incomplete_expired"
  | "past_due" => "past_due"
  | "trialing" => "trialing"
  | "unpaid" => "unpaid"
  | _ => "active"

/-- `BillingService.handleSubscriptionCreated`: bail out (resolving) when the
metadata is missing; otherwise update the Subscription row keyed by tenant id
(the ORM throws when it is absent), propagate the plan onto the tenant and
its feature limits onto the tenant settings. -/
def handleSubscriptionCreated (db : Db) (s : StripeSubscription) :
    Except ApiError Unit × Db :=
  if !(jsTruthyStr s.metadataTenantId) || s.metadataPlan.isNone then
    (.ok (), db)
  else
    let tenantId := s.metadataTenantId.getD ""
    let plan := s.metadataPlan.getD .free
    match findSubscriptionByTenant db tenantId with
    | none => (.error (.db "Record to update not found"), db)
    | some _ =>
      let db1 : Db :=
        { db with
            subscriptions := db.subscriptions.map (fun sub =>
              if sub.tenantId == tenantId then
                { sub with
                    stripeSubscriptionId := some s.id
                    plan := plan
                    status := mapStripeStatus s.status
                    currentPeriodStart := s.current_period_start * 1000
                    currentPeriodEnd := s.current_period_end * 1000
                    cancelAtPeriodEnd := s.cancel_at_period_end }
              else sub) }
      match updatePlan db1 tenantId plan with
      | (.error e, db2) => (.error e, db2)
      | (.ok (), db2) =>
        let planFeatures := PLAN_FEATURES plan
        updateSettings db2 tenantId
          { aiCreditsLimit := some planFeatures.aiCreditsPerMonth
            apiRateLimit := some planFeatures.apiRequestsPerMinute }

/-- `BillingService.handleSubscriptionUpdated`: find the Subscription row by
Stripe subscription id (logging and resolving when absent) and refresh its
status and period bounds. -/
def handleSubscriptionUpdated (db : Db) (s : StripeSubscription) :
    Except ApiError Unit × Db :=
  match findSubscriptionByStripeId db s.id with
  | none => (.ok (), db)
  | some sub =>
    (.ok (),
      { db with
          subscriptions := db.subscriptions.map (fun r =>
            if r.id == sub.id then
              { r with
                  status := mapStripeStatus s.status
                  currentPeriodStart := s.current_period_start * 1000
                  currentPeriodEnd := s.current_period_end * 1000
                  cancelAtPeriodEnd := s.cancel_at_period_end }
            else r) })

/-- `BillingService.handleSubscriptionDeleted`: find the Subscription row by
Stripe subscription id (logging and resolving when absent); set it to
`canceled` / free plan, downgrade the tenant to the free plan, and reset the
tenant settings to the free plan's feature limits. -/
def handleSubscriptionDeleted (db : Db) (s : StripeSubscription) :
    Except ApiError Unit × Db :=
  match findSubscriptionByStripeId db s.id with
  | none => (.ok (), db)
  | some sub =>
    let db1 : Db :=
      { db with
          subscriptions := db.subscriptions.map (fun r =>
            if r.id == sub.id then
              { r with status := "canceled", plan := BillingPlan.free }
            else r) }
    match updatePlan db1 sub.tenantId .free with
    | (.error e, db2) => (.error e, db2)
    | (.ok (), db2) =>
      let freePlanFeatures := PLAN_FEATURES .free
      updateSettings db2 sub.tenantId
        { aiCreditsLimit := some freePlanFeatures.aiCreditsPerMonth
          apiRateLimit := some freePlanFeatures.apiRequestsPerMinute }

/-! ## Webhook handler (`WebhooksService.handleStripeWebhook`) -/

/-- A verified Stripe event as `stripe.webhooks.constructEvent` returns it:
provider event id, event type, the subscription object carried in
`data.object` (the handlers only ever cast it to a subscription), and the
serialized `event.data` payload that is persisted. -/
structure StripeEvent where
  id : String
  type : String
  dataObject : StripeSubscription
  payload : String
deriving DecidableEq, Repr

/-- Modelled from the spec: creation of the `WebhookEvent` row.  The Prisma
schema for this table is not among the sources; the spec's data-model table
fixes that the row's idempotency key is the provider event id and that the
row is "created on receipt; marked processed after successful dispatch", so
the row is stored under `event.id` with `processed := false`. -/
def persistWebhookEvent (db : Db) (event : StripeEvent) : Db :=
  { db with
      webhookEvents :=
        { id := event.id, type := event.type
          data := event.payload, processed := false } :: db.webhookEvents }

/-- The `prisma.webhookEvent.update({ where: { id: event.id }, data:
{ processed: true } })` step. -/
def markWebhookProcessed (db : Db) (id : String) : Db :=
  { db with
      webhookEvents := db.webhookEvents.map (fun e =>
        if e.id == id then { e with processed := true } else e) }

/-- The `switch (event.type)` dispatch: subscription lifecycle events go to
the billing service, invoice events and unhandled types only log. -/
def dispatchStripeEvent (db : Db) (event : StripeEvent) :
    Except ApiError Unit × Db :=
  match event.type with
  | "customer.subscription.created" => handleSubscriptionCreated db event.dataObject
  | "customer.subscription.updated" => handleSubscriptionUpdated db event.dataObject
  | "customer.subscription.deleted" => handleSubscriptionDeleted db event.dataObject
  | "invoice.payment_succeeded" => (.ok (), db)
  | "invoice.payment_failed" => (.ok (), db)
  | _ => (.ok (), db)

/-- `WebhooksService.handleStripeWebhook`.  `webhookSecret` is the configured
shared secret (`none` when unset); `verified` is the outcome of
`stripe.webhooks.constructEvent` over the raw body and signature (`none` when
verification fails).  On a verified event: persist the raw event, dispatch by
type, and mark the stored event processed; a dispatch exception propagates
and leaves the event unprocessed. -/
def handleStripeWebhook (webhookSecret : Option String)
    (verified : Option StripeEvent) (db : Db) : Except ApiError Unit × Db :=
  match webhookSecret with
  | none => (.error (.internal "Webhook secret not configured"), db)
  | some _ =>
    match verified with
    | none => (.error (.internal "Invalid signature"), db)
    | some event =>
      let db1 := persistWebhookEvent db event
      match dispatchStripeEvent db1 event with
      | (.error e, db2) => (.error e, db2)
      | (.ok (), db2) => (.ok (), markWebhookProcessed db2 event.id)

/-! ## General list lemmas for the row stores -/

/-- `find?` over an append searches the left list first. -/
theorem find?_append_eq {α : Type} (l₁ l₂ : List α) (p : α → Bool) :
    (l₁ ++ l₂).find? p = ((l₁.find? p).orElse (fun _ => l₂.find? p)) := by
  induction l₁ with
  | nil => rfl
  | cons a l ih =>
    by_cases h : p a = true
    · simp [List.find?_cons_of_pos _ h, Option.orElse]
    · rw [List.cons_append, List.find?_cons_of_neg _ (by simpa using h),
        List.find?_cons_of_neg _ (by simpa using h), ih]

/-- Pointwise equal functions map lists equally. -/
theorem map_congr_mem {α β : Type} {l : List α} {f g : α → β}
    (h : ∀ a ∈ l, f a = g a) : l.map f = l.map g := by
  induction l with
  | nil => rfl
  | cons a l ih =>
    simp only [List.map_cons, h a (List.mem_cons_self a l)]
    rw [ih (fun x hx => h x (List.mem_cons_of_mem a hx))]

/-- A keyed update (`update where …`) commutes with a `find?` whose predicate
the update preserves: the first match is the updated first match. -/
theorem find?_map_keyed {α : Type} (l : List α) (q p : α → Bool) (f : α → α)
    (hq : ∀ a, q (f a) = q a) :
    (l.map (fun a => if p a then f a else a)).find? q
      = (l.find? q).map (fun a => if p a then f a else a) := by
  induction l with
  | nil => rfl
  | cons a l ih =>
    have hqa : q (if p a then f a else a) = q a := by
      by_cases hp : p a <;> simp [hp, hq]
    by_cases h : q a = true
    · rw [List.map_cons, List.find?_cons_of_pos _ (by rw [hqa]; exact h),
        List.find?_cons_of_pos _ h, Option.map_some']
    · rw [List.map_cons, List.find?_cons_of_neg _ (by simp [hqa, h]),
        List.find?_cons_of_neg _ (by simpa using h), ih]

/-- `jsOrNat` with fallback `0` is the identity on present values. -/
theorem jsOrNat_some_zero (n : Nat) : jsOrNat (some n) 0 = n := by
  unfold jsOrNat
  by_cases h : n = 0 <;> simp [h]

/-! ## Collapse-step equations and the slug equivalence -/

/-- Unfolding equation of `collapseAux` on a cons cell. -/
theorem collapseAux_cons (p : Char → Bool) (b : Bool) (c : Char) (cs : List Char) :
    collapseAux p b (c :: cs) =
      if p c then (if b then collapseAux p true cs else '-' :: collapseAux p true cs)
      else c :: collapseAux p false cs := rfl

/-- The declarative fold `collapseSpec` computes the same replacement of
`[\s-]+` runs as the left-to-right scanner `collapseAux`; the second conjunct
is the strengthening about a scan that starts inside a run. -/
theorem collapseSpec_eq_collapseAux (l : List Char) :
    collapseSpec l = collapseAux isSpaceDash false l ∧
    '-' :: collapseAux isSpaceDash true l =
      (if (collapseAux isSpaceDash false l).head? == some '-' then
        collapseAux isSpaceDash false l
      else '-' :: collapseAux isSpaceDash false l) := by
  induction l with
  | nil => exact ⟨rfl, rfl⟩
  | cons c cs ih =>
    obtain ⟨ih1, ih2⟩ := ih
    have e1 : collapseSpec (c :: cs) = collapseSpecStep c (collapseSpec cs) := rfl
    by_cases h : isSpaceDash c = true
    · constructor
      · rw [e1, ih1]
        unfold collapseSpecStep
        rw [if_pos h, collapseAux_cons, if_pos h]
        simp only [Bool.false_eq_true, if_false]
        rw [← ih2]
      · rw [collapseAux_cons, if_pos h, collapseAux_cons, if_pos h]
        simp
    · have hc : c ≠ '-' := fun hcc => h (by rw [hcc]; rfl)
      constructor
      · rw [e1, ih1]
        unfold collapseSpecStep
        rw [if_neg h, collapseAux_cons, if_neg h]
      · rw [collapseAux_cons, if_neg h, collapseAux_cons, if_neg h]
        have hhead : ((c :: collapseAux isSpaceDash false cs).head? == some '-') = false := by
          simp [hc]
        rw [hhead]
        simp

/-! ## C6 — slug derivation -/

/-- C6, counterexample: the claim's pipeline (lowercase, strip, collapse
whitespace runs to hyphens, truncate — `slugSpecClaim`) disagrees with the
implemented `generateSlug` on the tenant name `"a--b"`: the code also
collapses hyphen runs, producing `"a-b"` where the claimed pipeline keeps
`"a--b"`. -/
theorem c6_slug_counterexample :
    generateSlug "a--b" ≠ slugSpecClaim "a--b" ∧
    generateSlug "a--b" = "a-b" ∧ slugSpecClaim "a--b" = "a--b" := by
  exact ⟨by decide, by decide, by decide⟩

/-- C6, amended: for every tenant name the derived slug equals the name
lowercased, with characters other than lowercase alphanumerics, whitespace
and hyphens stripped, leading and trailing whitespace trimmed, every run of
whitespace and hyphens collapsed to a single hyphen, and the result truncated
to at most 50 characters; in particular both "Acme Inc" and "Acme Inc!!"
derive the slug `acme-inc`. -/
theorem c6_slug_amended :
    (∀ name : String, generateSlug name = slugSpecAmended name) ∧
    generateSlug "Acme Inc" = "acme-inc" ∧ generateSlug "Acme Inc!!" = "acme-inc" := by
  refine ⟨fun name => ?_, by decide, by decide⟩
  unfold generateSlug slugSpecAmended collapseRuns
  rw [(collapseSpec_eq_collapseAux _).1]

/-! ## C7 — Q&A confidence heuristic -/

/-- C7, counterexample: the claim says any answer containing neither
"cannot find" nor "according to" yields confidence exactly 0.7, but
`calculateConfidence` returns 0.1 for an answer containing "not mentioned". -/
theorem c7_confidence_counterexample :
    calculateConfidence "It is not mentioned." ≠ 7/10 ∧
    strContains "It is not mentioned." "cannot find" = false ∧
    strContains "It is not mentioned." "according to" = false ∧
    calculateConfidence "It is not mentioned." = 1/10 := by
  have h1 : strContains "It is not mentioned." "cannot find" = false := by decide
  have h2 : strContains "It is not mentioned." "not mentioned" = true := by decide
  have h3 : strContains "It is not mentioned." "according to" = false := by decide
  have e : calculateConfidence "It is not mentioned." = 1/10 := by
    unfold calculateConfidence
    rw [h1, h2]
    simp
  refine ⟨?_, h1, h3, e⟩
  rw [e]
  norm_num

/-- C7, amended: the confidence is exactly 0.1 if the answer contains
"cannot find" or "not mentioned"; otherwise exactly 0.9 if it contains
"specifically states" or "according to"; and exactly 0.7 for any other
answer. -/
theorem c7_confidence_amended (a : String) :
    ((strContains a "cannot find" = true ∨ strContains a "not mentioned" = true) →
      calculateConfidence a = 1/10) ∧
    (strContains a "cannot find" = false → strContains a "not mentioned" = false →
      (strContains a "specifically states" = true ∨ strContains a "according to" = true) →
      calculateConfidence a = 9/10) ∧
    (strContains a "cannot find" = false → strContains a "not mentioned" = false →
      strContains a "specifically states" = false → strContains a "according to" = false →
      calculateConfidence a = 7/10) := by
  refine ⟨fun h => ?_, fun h1 h2 h3 => ?_, fun h1 h2 h3 h4 => ?_⟩
  · rcases h with h | h <;> simp [calculateConfidence, h]
  · rcases h3 with h3 | h3 <;> simp [calculateConfidence, h1, h2, h3]
  · simp [calculateConfidence, h1, h2, h3, h4]

/-- C7, witness: the amended confidence theorem applied at one concrete
answer per branch. -/
theorem c7_confidence_amended_witness :
    calculateConfidence "Nothing. I cannot find it." = 1/10 ∧
    calculateConfidence "Yes, according to the document." = 9/10 ∧
    calculateConfidence "The sky is blue." = 7/10 := by
  refine ⟨(c7_confidence_amended _).1 (Or.inl (by decide)),
    (c7_confidence_amended _).2.1 (by decide) (by decide) (Or.inr (by decide)),
    (c7_confidence_amended _).2.2 (by decide) (by decide) (by decide) (by decide)⟩

/-! ## Usage-metering lemmas -/

theorem tenants_incrementUsage (db : Db) (month tid : String) (c r : Nat) :
    (incrementUsage db month tid c r).tenants = db.tenants := by
  unfold incrementUsage
  split <;> rfl

theorem aiRequests_incrementUsage (db : Db) (month tid : String) (c r : Nat) :
    (incrementUsage db month tid c r).aiRequests = db.aiRequests := by
  unfold incrementUsage
  split <;> rfl

theorem getTenantUsage_eq_of (db db' : Db) (month tid : String)
    (ht : db'.tenants = db.tenants) (hu : db'.usages = db.usages) :
    getTenantUsage db' month tid = getTenantUsage db month tid := by
  unfold getTenantUsage findTenant findUsage
  rw [ht, hu]

theorem getTenantUsage_incrementUsage (db : Db) (month tid : String) (c r : Nat)
    (u : TenantUsage) (hu : getTenantUsage db month tid = .ok u) :
    getTenantUsage (incrementUsage db month tid c r) month tid =
      .ok { u with aiCreditsUsed := u.aiCreditsUsed + c
                   apiRequestsCount := u.apiRequestsCount + r } := by
  unfold getTenantUsage at hu ⊢
  rw [show findTenant (incrementUsage db month tid c r) tid = findTenant db tid by
    unfold findTenant; rw [tenants_incrementUsage]]
  cases hft : findTenant db tid with
  | none => rw [hft] at hu; exact absurd hu (by simp)
  | some t =>
    rw [hft] at hu
    have hu' : u = _ := (Except.ok.inj hu).symm
    unfold incrementUsage
    cases hfu : findUsage db tid month with
    | none =>
      simp only [hfu]
      have hfind : findUsage
          { db with usages := db.usages ++
            [{ tenantId := tid, month := month, aiCreditsUsed := c, apiRequestsCount := r }] }
          tid month = some { tenantId := tid, month := month, aiCreditsUsed := c, apiRequestsCount := r } := by
        unfold findUsage at hfu ⊢
        simp only [find?_append_eq, hfu]
        simp [Option.orElse, List.find?]
      rw [hfind]
      rw [hfu] at hu'
      simp only [Option.map_none'] at hu'
      rw [hu']
      simp only [Option.map_some']
      simp [jsOrNat]
      omega
    | some urow =>
      simp only [hfu]
      have hfind : findUsage
          { db with usages := db.usages.map (fun w =>
            if w.tenantId == tid && w.month == month then
              { w with aiCreditsUsed := w.aiCreditsUsed + c
                       apiRequestsCount := w.apiRequestsCount + r }
            else w) } tid month
          = some { urow with aiCreditsUsed := urow.aiCreditsUsed + c
                             apiRequestsCount := urow.apiRequestsCount + r } := by
        unfold findUsage at hfu ⊢
        rw [find?_map_keyed db.usages
          (fun w => w.tenantId == tid && w.month == month)
          (fun w => w.tenantId == tid && w.month == month)
          (fun w => { w with aiCreditsUsed := w.aiCreditsUsed + c
                             apiRequestsCount := w.apiRequestsCount + r })
          (fun a => rfl), hfu]
        have hp0 := List.find?_some hfu
        have hp : (urow.tenantId == tid && urow.month == month) = true := hp0
        rw [Bool.and_eq_true, beq_iff_eq, beq_iff_eq] at hp
        simp [Option.map_some', hp.1, hp.2]
      rw [hfind]
      rw [hfu] at hu'
      simp only [Option.map_some'] at hu'
      rw [hu']
      simp only [Option.map_some']
      simp [jsOrNat_some_zero]

/-! ## C1, C2, C3, C9 — AI gateway credit metering -/

/-- C1: for every `summarize` or `answerQuestion` call where the tenant's
current-month `aiCreditsUsed` plus the service's required credits exceeds the
tenant's `aiCreditsLimit` (both as `getTenantUsage` reports them), the call
fails with `PaymentRequired` and the database is unchanged — so no AiRequest
row is created for the call and no tenant usage counter moves. -/
theorem c1_credit_ceiling (db : Db) (month tenantId userId : String)
    (text : String) (maxLength : Option Nat) (style : Option String)
    (documentText question : String) (context : Option String)
    (newId : String) (ext : ExtOutcome) (elapsed : Nat)
    (u : TenantUsage) (hu : getTenantUsage db month tenantId = .ok u) :
    (u.aiCreditsUsed + AI_SERVICE_CREDITS .text_summarization > u.aiCreditsLimit →
      summarizeText db month tenantId userId text maxLength style newId ext elapsed =
        (.error (.paymentRequired "Insufficient AI credits. Please upgrade your plan."), db)) ∧
    (u.aiCreditsUsed + AI_SERVICE_CREDITS .document_qa > u.aiCreditsLimit →
      answerQuestion db month tenantId userId documentText question context newId ext elapsed =
        (.error (.paymentRequired "Insufficient AI credits. Please upgrade your plan."), db)) := by
  have hc2 : ∀ n, u.aiCreditsUsed + n > u.aiCreditsLimit →
      checkCredits db month tenantId n =
        .error (.paymentRequired "Insufficient AI credits. Please upgrade your plan.") := by
    intro n h
    unfold checkCredits
    rw [hu]
    simp [h]
  constructor
  · intro h
    unfold summarizeText
    simp only [hc2 _ h]
  · intro h
    unfold answerQuestion
    simp only [hc2 _ h]

/-- The credit check succeeds when the snapshot shows room for the request. -/
theorem checkCredits_ok (db : Db) (month tenantId : String) (n : Nat)
    (u : TenantUsage) (hu : getTenantUsage db month tenantId = .ok u)
    (hfit : u.aiCreditsUsed + n ≤ u.aiCreditsLimit) :
    checkCredits db month tenantId n = .ok () := by
  unfold checkCredits
  rw [hu]
  simp
  omega

/-- C2: for every `summarize` call with sufficient credits whose external
model call throws, the AiRequest row created for the call ends in status
`failed` with the (non-null) error message recorded, the caller receives the
generic `BadRequest`, and the tenant's usage rows are unchanged. -/
theorem c2_summarize_failure (db : Db) (month tenantId userId : String)
    (text : String) (maxLength : Option Nat) (style : Option String)
    (newId msg : String) (elapsed : Nat) (u : TenantUsage)
    (hu : getTenantUsage db month tenantId = .ok u)
    (hfit : u.aiCreditsUsed + AI_SERVICE_CREDITS .text_summarization ≤ u.aiCreditsLimit) :
    (summarizeText db month tenantId userId text maxLength style newId (.failure msg) elapsed).1 =
      .error (.badRequest "Failed to summarize text") ∧
    (findAiRequest (summarizeText db month tenantId userId text maxLength style newId
        (.failure msg) elapsed).2 newId).map (fun r => (r.status, r.errorMessage)) =
      some (.failed, some msg) ∧
    (summarizeText db month tenantId userId text maxLength style newId
        (.failure msg) elapsed).2.usages = db.usages := by
  have hok := checkCredits_ok db month tenantId _ u hu hfit
  refine ⟨?_, ?_, ?_⟩
  · unfold summarizeText
    simp only [hok]
  · unfold summarizeText
    simp only [hok]
    simp [findAiRequest, updateAiRequestRow, List.find?]
  · unfold summarizeText
    simp only [hok]
    rfl

/-- C3: for every `summarize` call with sufficient credits whose external
model call succeeds, the AiRequest row ends `completed`, the current-month
usage is incremented by exactly the fixed summarization cost (2 credits) and
exactly one request, and the returned value carries that `creditsUsed`
together with the `originalLength` and `summaryLength` metrics. -/
theorem c3_summarize_success (db : Db) (month tenantId userId : String)
    (text : String) (maxLength : Option Nat) (style : Option String)
    (newId : String) (content : Option String) (elapsed : Nat) (u : TenantUsage)
    (hu : getTenantUsage db month tenantId = .ok u)
    (hfit : u.aiCreditsUsed + AI_SERVICE_CREDITS .text_summarization ≤ u.aiCreditsLimit) :
    (summarizeText db month tenantId userId text maxLength style newId
        (.success content) elapsed).1 =
      .ok { summary := content.getD ""
            originalLength := text.length
            summaryLength := (content.getD "").length
            creditsUsed := AI_SERVICE_CREDITS .text_summarization } ∧
    (findAiRequest (summarizeText db month tenantId userId text maxLength style newId
        (.success content) elapsed).2 newId).map (fun r => (r.status, r.output)) =
      some (.completed, some (content.getD "")) ∧
    getTenantUsage (summarizeText db month tenantId userId text maxLength style newId
        (.success content) elapsed).2 month tenantId =
      .ok { u with
              aiCreditsUsed := u.aiCreditsUsed + AI_SERVICE_CREDITS .text_summarization
              apiRequestsCount := u.apiRequestsCount + 1 } := by
  have hok := checkCredits_ok db month tenantId _ u hu hfit
  refine ⟨?_, ?_, ?_⟩
  · unfold summarizeText
    simp only [hok]
  · unfold summarizeText
    simp only [hok]
    rw [show ∀ dbx : Db, ∀ c rq, findAiRequest (incrementUsage dbx month tenantId c rq) newId
        = findAiRequest dbx newId from fun dbx c rq => by
      unfold findAiRequest; rw [aiRequests_incrementUsage]]
    simp [findAiRequest, updateAiRequestRow, List.find?]
  · unfold summarizeText
    simp only [hok]
    refine Eq.trans (getTenantUsage_incrementUsage _ month tenantId _ _ u ?_) rfl
    refine Eq.trans (getTenantUsage_eq_of _ db month tenantId rfl rfl) hu

/-- C9: when a `summarize` or `answerQuestion` call fails at the external
model, the AiRequest row still carries `creditsUsed` equal to the service's
required cost (it was set at creation and is not reset on failure) while the
tenant usage rows are unchanged — so the sum of `AiRequest.creditsUsed` grows
by the service cost even though recorded usage does not. -/
theorem c9_failed_call_credits (db : Db) (month tenantId userId : String)
    (text : String) (maxLength : Option Nat) (style : Option String)
    (documentText question : String) (context : Option String)
    (newId msg : String) (elapsed : Nat) (u : TenantUsage)
    (hu : getTenantUsage db month tenantId = .ok u) :
    (u.aiCreditsUsed + AI_SERVICE_CREDITS .text_summarization ≤ u.aiCreditsLimit →
      (findAiRequest (summarizeText db month tenantId userId text maxLength style newId
          (.failure msg) elapsed).2 newId).map (fun r => r.creditsUsed) =
        some (AI_SERVICE_CREDITS .text_summarization) ∧
      (summarizeText db month tenantId userId text maxLength style newId
          (.failure msg) elapsed).2.usages = db.usages ∧
      ((summarizeText db month tenantId userId text maxLength style newId
          (.failure msg) elapsed).2.aiRequests.map (fun r => r.creditsUsed)).sum =
        AI_SERVICE_CREDITS .text_summarization +
          (db.aiRequests.map (fun r => r.creditsUsed)).sum) ∧
    (u.aiCreditsUsed + AI_SERVICE_CREDITS .document_qa ≤ u.aiCreditsLimit →
      (findAiRequest (answerQuestion db month tenantId userId documentText question context
          newId (.failure msg) elapsed).2 newId).map (fun r => r.creditsUsed) =
        some (AI_SERVICE_CREDITS .document_qa) ∧
      (answerQuestion db month tenantId userId documentText question context newId
          (.failure msg) elapsed).2.usages = db.usages ∧
      ((answerQuestion db month tenantId userId documentText question context newId
          (.failure msg) elapsed).2.aiRequests.map (fun r => r.creditsUsed)).sum =
        AI_SERVICE_CREDITS .document_qa +
          (db.aiRequests.map (fun r => r.creditsUsed)).sum) := by
  constructor
  · intro hfit
    have hok := checkCredits_ok db month tenantId _ u hu hfit
    refine ⟨?_, ?_, ?_⟩
    · unfold summarizeText
      simp only [hok]
      simp [findAiRequest, updateAiRequestRow, List.find?]
    · unfold summarizeText
      simp only [hok]
      rfl
    · unfold summarizeText
      simp only [hok]
      simp only [updateAiRequestRow, List.map_cons, List.map_map, List.sum_cons]
      congr 1
      · simp
      · congr 1
        refine map_congr_mem (fun r _ => ?_)
        by_cases h : r.id = newId <;> simp [Function.comp, h]
  · intro hfit
    have hok := checkCredits_ok db month tenantId _ u hu hfit
    refine ⟨?_, ?_, ?_⟩
    · unfold answerQuestion
      simp only [hok]
      simp [findAiRequest, updateAiRequestRow, List.find?]
    · unfold answerQuestion
      simp only [hok]
      rfl
    · unfold answerQuestion
      simp only [hok]
      simp only [updateAiRequestRow, List.map_cons, List.map_map, List.sum_cons]
      congr 1
      · simp
      · congr 1
        refine map_congr_mem (fun r _ => ?_)
        by_cases h : r.id = newId <;> simp [Function.comp, h]

/-! ## Concrete fixtures for the witnesses -/

/-- A concrete tenant on the free plan with the default settings. -/
def tenantT1 : TenantRow :=
  { id := "t1", name := "Acme", slug := "acme", plan := .free, isActive := true
    settings := { aiCreditsLimit := some 100, apiRateLimit := some 10 } }

/-- A database whose tenant `t1` has used 99 of 100 credits in 2026-10. -/
def dbAtLimit : Db :=
  { tenants := [tenantT1], users := [], teamMembers := [], subscriptions := []
    usages := [{ tenantId := "t1", month := "2026-10"
                 aiCreditsUsed := 99, apiRequestsCount := 5 }]
    aiRequests := [], webhookEvents := [] }

/-- A database whose tenant `t1` has used 10 of 100 credits in 2026-10. -/
def dbUnderLimit : Db :=
  { tenants := [tenantT1], users := [], teamMembers := [], subscriptions := []
    usages := [{ tenantId := "t1", month := "2026-10"
                 aiCreditsUsed := 10, apiRequestsCount := 5 }]
    aiRequests := [], webhookEvents := [] }

/-- The usage snapshot of `dbAtLimit`. -/
def usageAtLimit : TenantUsage := ⟨"2026-10", 99, 5, 100, 10⟩

/-- The usage snapshot of `dbUnderLimit`. -/
def usageUnderLimit : TenantUsage := ⟨"2026-10", 10, 5, 100, 10⟩

/-- C1, witness: with usage 99/100, the 2-credit summarization and the
3-credit Q&A both fail with `PaymentRequired` and leave the database
untouched. -/
theorem c1_credit_ceiling_witness :
    summarizeText dbAtLimit "2026-10" "t1" "u9" "text" none none "r1"
        (.success (some "s")) 7 =
      (.error (.paymentRequired "Insufficient AI credits. Please upgrade your plan."),
        dbAtLimit) ∧
    answerQuestion dbAtLimit "2026-10" "t1" "u9" "doc" "q" none "r1"
        (.success (some "a")) 7 =
      (.error (.paymentRequired "Insufficient AI credits. Please upgrade your plan."),
        dbAtLimit) := by
  exact ⟨(c1_credit_ceiling dbAtLimit "2026-10" "t1" "u9" "text" none none "doc" "q"
      none "r1" (.success (some "s")) 7 usageAtLimit (by rfl)).1 (by decide),
    (c1_credit_ceiling dbAtLimit "2026-10" "t1" "u9" "text" none none "doc" "q"
      none "r1" (.success (some "a")) 7 usageAtLimit (by rfl)).2 (by decide)⟩

/-- C2, witness: a failing external call under the limit yields the generic
`BadRequest`, a `failed` row carrying the error message, and unchanged usage
rows. -/
theorem c2_summarize_failure_witness :
    (summarizeText dbUnderLimit "2026-10" "t1" "u9" "text" none none "r1"
        (.failure "boom") 7).1 = .error (.badRequest "Failed to summarize text") ∧
    (findAiRequest (summarizeText dbUnderLimit "2026-10" "t1" "u9" "text" none none "r1"
        (.failure "boom") 7).2 "r1").map (fun r => (r.status, r.errorMessage)) =
      some (.failed, some "boom") ∧
    (summarizeText dbUnderLimit "2026-10" "t1" "u9" "text" none none "r1"
        (.failure "boom") 7).2.usages = dbUnderLimit.usages := by
  exact c2_summarize_failure dbUnderLimit "2026-10" "t1" "u9" "text" none none "r1"
    "boom" 7 usageUnderLimit (by rfl) (by decide)

/-- C3, witness: a successful external call under the limit completes the row
and moves usage from (10, 5) to (12, 6). -/
theorem c3_summarize_success_witness :
    (summarizeText dbUnderLimit "2026-10" "t1" "u9" "hello world" none none "r1"
        (.success (some "hi")) 7).1 =
      .ok { summary := "hi", originalLength := 11, summaryLength := 2, creditsUsed := 2 } ∧
    getTenantUsage (summarizeText dbUnderLimit "2026-10" "t1" "u9" "hello world" none none
        "r1" (.success (some "hi")) 7).2 "2026-10" "t1" =
      .ok ⟨"2026-10", 12, 6, 100, 10⟩ := by
  exact ⟨(c3_summarize_success dbUnderLimit "2026-10" "t1" "u9" "hello world" none none
      "r1" (some "hi") 7 usageUnderLimit (by rfl) (by decide)).1,
    (c3_summarize_success dbUnderLimit "2026-10" "t1" "u9" "hello world" none none
      "r1" (some "hi") 7 usageUnderLimit (by rfl) (by decide)).2.2⟩

/-- C9, witness: after a failed 2-credit summarization the stored rows sum to
2 credits while the usage rows are unchanged. -/
theorem c9_failed_call_credits_witness :
    ((summarizeText dbUnderLimit "2026-10" "t1" "u9" "text" none none "r1"
        (.failure "boom") 7).2.aiRequests.map (fun r => r.creditsUsed)).sum =
      AI_SERVICE_CREDITS .text_summarization +
        (dbUnderLimit.aiRequests.map (fun r => r.creditsUsed)).sum ∧
    (answerQuestion dbUnderLimit "2026-10" "t1" "u9" "doc" "q" none "r2"
        (.failure "boom") 7).2.usages = dbUnderLimit.usages := by
  exact ⟨((c9_failed_call_credits dbUnderLimit "2026-10" "t1" "u9" "text" none none
      "doc" "q" none "r1" "boom" 7 usageUnderLimit (by rfl)).1 (by decide)).2.2,
    ((c9_failed_call_credits dbUnderLimit "2026-10" "t1" "u9" "text" none none
      "doc" "q" none "r2" "boom" 7 usageUnderLimit (by rfl)).2 (by decide)).2.1⟩

/-! ## C10 — `updateUser` never touches the stored password -/

/-- C10: `updateUser` strips the `password` field from the update payload
before writing, so for every call — whatever data is supplied and whichever
branch (not-found, forbidden, success) is taken — every user's stored
password hash is unchanged. -/
theorem c10_updateUser_preserves_passwords (db : Db) (id tenantId : String)
    (currentUserRole : UserRole) (data : UserUpdateData) :
    ((updateUser db id tenantId currentUserRole data).2).users.map (fun u => u.password) =
      db.users.map (fun u => u.password) := by
  unfold updateUser
  split
  · rfl
  · split
    · rfl
    · split
      · rfl
      · simp only [List.map_map]
        refine map_congr_mem (fun u _ => ?_)
        by_cases h : u.id = id <;>
          simp [Function.comp, h, applyUserUpdate]

/-! ## C5 — registration conflicts and atomicity -/

/-- C5: a `register` call with an already-registered email, or whose derived
tenant slug equals an existing tenant's slug, fails with `Conflict` and
leaves the database unchanged (so no new Tenant, User, TeamMember or
Subscription row exists afterwards); conversely a successful `register`
produces exactly the database extended with all four new rows at once, so no
partial subset is ever observable. -/
theorem c5_register_atomic (db : Db) (req : RegisterRequest) (hashedPassword : String)
    (ids : RegisterIds) (now : Nat) :
    (findUserByEmail db req.email ≠ none →
      register db req hashedPassword ids now =
        (.error (.conflict "User with this email already exists"), db)) ∧
    (findUserByEmail db req.email = none →
      findTenantBySlug db (generateSlug req.tenantName) ≠ none →
      register db req hashedPassword ids now =
        (.error (.conflict "Organization name is already taken"), db)) ∧
    (findUserByEmail db req.email = none →
      findTenantBySlug db (generateSlug req.tenantName) = none →
      ∃ tenant user member subscription,
        tenant.slug = generateSlug req.tenantName ∧ tenant.plan = .free ∧
        user.email = req.email ∧ user.role = .admin ∧
        subscription.plan = BillingPlan.free ∧
        register db req hashedPassword ids now =
          (.ok (user, tenant),
            { db with
                tenants := tenant :: db.tenants
                users := user :: db.users
                teamMembers := member :: db.teamMembers
                subscriptions := subscription :: db.subscriptions })) := by
  refine ⟨?_, ?_, ?_⟩
  · intro h
    unfold register
    split
    · rfl
    · rename_i heq
      exact absurd heq h
  · intro h1 h2
    unfold register
    split
    · rename_i x heq
      rw [h1] at heq
      cases heq
    · dsimp only
      split
      · rfl
      · rename_i heq2
        exact absurd heq2 h2
  · intro h1 h2
    unfold register
    split
    · rename_i x heq
      rw [h1] at heq
      cases heq
    · dsimp only
      split
      · rename_i x heq2
        rw [h2] at heq2
        cases heq2
      · exact ⟨_, _, _, _, rfl, rfl, rfl, rfl, rfl, rfl⟩

/-- An empty database. -/
def dbEmpty : Db := ⟨[], [], [], [], [], [], []⟩

/-- A registered user occupying the email used by the witness. -/
def userAnn : UserRow :=
  { id := "uid0", email := "ann@acme.io", name := "Ann", password := "h0"
    role := .admin, tenantId := "tid0", isActive := true, avatar := none }

/-- A database already holding `userAnn`. -/
def dbWithAnn : Db := { dbEmpty with users := [userAnn] }

/-- The registration request of the witness. -/
def regReq : RegisterRequest :=
  { email := "ann@acme.io", password := "pw", name := "Ann", tenantName := "Acme Inc" }

/-- Fresh ids for the witness registration. -/
def regIds : RegisterIds := ⟨"tid1", "uid1", "mid1", "sid1"⟩

/-- C5, witness: the same email twice yields `Conflict` with the database
unchanged, and registration into an empty database creates exactly the four
rows. -/
theorem c5_register_atomic_witness :
    register dbWithAnn regReq "h2" regIds 0 =
      (.error (.conflict "User with this email already exists"), dbWithAnn) ∧
    (∃ tenant user member subscription,
      tenant.slug = generateSlug regReq.tenantName ∧ tenant.plan = .free ∧
      user.email = regReq.email ∧ user.role = .admin ∧
      subscription.plan = BillingPlan.free ∧
      register dbEmpty regReq "h2" regIds 0 =
        (.ok (user, tenant),
          { dbEmpty with
              tenants := tenant :: dbEmpty.tenants
              users := user :: dbEmpty.users
              teamMembers := member :: dbEmpty.teamMembers
              subscriptions := subscription :: dbEmpty.subscriptions })) := by
  exact ⟨(c5_register_atomic dbWithAnn regReq "h2" regIds 0).1 (by decide),
    (c5_register_atomic dbEmpty regReq "h2" regIds 0).2.2 rfl rfl⟩

/-! ## C8 — forced downgrade on subscription deletion -/

/-- `updatePlan` on an existing tenant resolves and maps the plan update over
the tenant table. -/
theorem updatePlan_of_found (db : Db) (id : String) (plan : BillingPlan) (t : TenantRow)
    (ht : findTenant db id = some t) :
    updatePlan db id plan =
      (.ok (), { db with tenants := db.tenants.map (fun x =>
        if x.id == id then { x with plan := plan } else x) }) := by
  unfold updatePlan
  rw [ht]

/-- `updateSettings` on an existing tenant resolves and maps the settings
replacement over the tenant table. -/
theorem updateSettings_of_found (db : Db) (id : String) (settings : TenantSettings)
    (t : TenantRow) (ht : findTenant db id = some t) :
    updateSettings db id settings =
      (.ok (), { db with tenants := db.tenants.map (fun x =>
        if x.id == id then { x with settings := settings } else x) }) := by
  unfold updateSettings
  rw [ht]

/-- C8: for every `customer.subscription.deleted` webhook whose subscription
id matches a stored Subscription row (of a tenant that exists), the handler
resolves, sets that Subscription's status to `canceled` and its plan to
`free`, and resets the owning Tenant's plan and settings to the free plan's
`aiCreditsPerMonth` / `apiRequestsPerMinute` limits — the prior plan being
arbitrary. -/
theorem c8_subscription_deleted (db : Db) (s : StripeSubscription)
    (sub : SubscriptionRow) (t : TenantRow)
    (hsub : findSubscriptionByStripeId db s.id = some sub)
    (ht : findTenant db sub.tenantId = some t) :
    (handleSubscriptionDeleted db s).1 = .ok () ∧
    (findSubscriptionByStripeId (handleSubscriptionDeleted db s).2 s.id).map
      (fun r => (r.status, r.plan)) = some ("canceled", BillingPlan.free) ∧
    (findTenant (handleSubscriptionDeleted db s).2 sub.tenantId).map
      (fun r => (r.plan, r.settings)) =
      some (BillingPlan.free,
        ⟨some (PLAN_FEATURES .free).aiCreditsPerMonth,
         some (PLAN_FEATURES .free).apiRequestsPerMinute⟩) := by
  have ht0 : db.tenants.find? (fun x => x.id == sub.tenantId) = some t := ht
  have hpt0 := List.find?_some ht0
  have hpt : (t.id == sub.tenantId) = true := hpt0
  have hpt' : t.id = sub.tenantId := by simpa using hpt
  have hs0 : db.subscriptions.find? (fun r => r.stripeSubscriptionId == some s.id) = some sub := hsub
  have hps0 := List.find?_some hs0
  have hps : (sub.stripeSubscriptionId == some s.id) = true := hps0
  have hsub1 : findTenant
      { db with subscriptions := db.subscriptions.map (fun r =>
          if r.id == sub.id then { r with status := "canceled", plan := BillingPlan.free }
          else r) } sub.tenantId = some t := ht
  have heq : handleSubscriptionDeleted db s =
      (.ok (), { db with
        subscriptions := db.subscriptions.map (fun r =>
          if r.id == sub.id then { r with status := "canceled", plan := BillingPlan.free }
          else r)
        tenants := (db.tenants.map (fun x =>
            if x.id == sub.tenantId then { x with plan := BillingPlan.free } else x)).map
          (fun x => if x.id == sub.tenantId then
            { x with settings :=
                ⟨some (PLAN_FEATURES .free).aiCreditsPerMonth,
                 some (PLAN_FEATURES .free).apiRequestsPerMinute⟩ } else x) }) := by
    unfold handleSubscriptionDeleted
    rw [hsub]
    dsimp only
    rw [updatePlan_of_found _ _ _ t hsub1]
    dsimp only
    rw [updateSettings_of_found _ _ _ { t with plan := BillingPlan.free } (by
      unfold findTenant
      dsimp only
      rw [find?_map_keyed db.tenants
        (fun x => x.id == sub.tenantId) (fun x => x.id == sub.tenantId)
        (fun x => { x with plan := BillingPlan.free }) (fun a => rfl)]
      unfold findTenant at hsub1
      rw [hsub1]
      simp [hpt'])]
  refine ⟨by rw [heq], ?_, ?_⟩
  · rw [heq]
    unfold findSubscriptionByStripeId
    dsimp only
    rw [find?_map_keyed db.subscriptions
      (fun r => r.stripeSubscriptionId == some s.id) (fun r => r.id == sub.id)
      (fun r => { r with status := "canceled", plan := BillingPlan.free }) (fun a => rfl)]
    unfold findSubscriptionByStripeId at hsub
    rw [hsub]
    simp
  · rw [heq]
    unfold findTenant
    dsimp only
    rw [find?_map_keyed (db.tenants.map (fun x =>
        if x.id == sub.tenantId then { x with plan := BillingPlan.free } else x))
      (fun x => x.id == sub.tenantId) (fun x => x.id == sub.tenantId)
      (fun x => { x with settings :=
        ⟨some (PLAN_FEATURES .free).aiCreditsPerMonth,
         some (PLAN_FEATURES .free).apiRequestsPerMinute⟩ }) (fun a => rfl)]
    rw [find?_map_keyed db.tenants
      (fun x => x.id == sub.tenantId) (fun x => x.id == sub.tenantId)
      (fun x => { x with plan := BillingPlan.free }) (fun a => rfl)]
    unfold findTenant at ht
    rw [ht]
    simp [hpt']

/-- A stored pro-plan subscription with a Stripe subscription id. -/
def subS1 : SubscriptionRow :=
  { id := "s1", tenantId := "t1", stripeCustomerId := some "cus_1"
    stripeSubscriptionId := some "sub_1", plan := .pro, status := "active"
    currentPeriodStart := 0, currentPeriodEnd := 0, cancelAtPeriodEnd := false }

/-- `tenantT1` upgraded to the pro plan and its limits. -/
def tenantT1Pro : TenantRow :=
  { tenantT1 with plan := .pro, settings := ⟨some 10000, some 200⟩ }

/-- A database holding the pro tenant and its subscription. -/
def dbBilling : Db :=
  { tenants := [tenantT1Pro], users := [], teamMembers := []
    subscriptions := [subS1], usages := [], aiRequests := [], webhookEvents := [] }

/-- The Stripe subscription object of a deletion webhook. -/
def stripeSubDel : StripeSubscription :=
  { id := "sub_1", status := "canceled", current_period_start := 0
    current_period_end := 0, cancel_at_period_end := false
    metadataTenantId := none, metadataPlan := none }

/-- C8, witness: deleting the pro subscription downgrades tenant `t1` to the
free plan with limits (100, 10). -/
theorem c8_subscription_deleted_witness :
    (handleSubscriptionDeleted dbBilling stripeSubDel).1 = .ok () ∧
    (findSubscriptionByStripeId (handleSubscriptionDeleted dbBilling stripeSubDel).2
        "sub_1").map (fun r => (r.status, r.plan)) = some ("canceled", BillingPlan.free) ∧
    (findTenant (handleSubscriptionDeleted dbBilling stripeSubDel).2 "t1").map
      (fun r => (r.plan, r.settings)) =
      some (BillingPlan.free, ⟨some 100, some 10⟩) := by
  exact c8_subscription_deleted dbBilling stripeSubDel subS1 tenantT1Pro rfl rfl

/-! ## C4 — webhook persist / dispatch / mark lifecycle -/

/-- `updatePlan` never touches the webhook-event table. -/
theorem updatePlan_webhookEvents (db : Db) (id : String) (plan : BillingPlan) :
    ((updatePlan db id plan).2).webhookEvents = db.webhookEvents := by
  unfold updatePlan
  split <;> rfl

/-- `updateSettings` never touches the webhook-event table. -/
theorem updateSettings_webhookEvents (db : Db) (id : String) (settings : TenantSettings) :
    ((updateSettings db id settings).2).webhookEvents = db.webhookEvents := by
  unfold updateSettings
  split <;> rfl

/-- The creation reconciler never touches the webhook-event table. -/
theorem handleSubscriptionCreated_webhookEvents (db : Db) (s : StripeSubscription) :
    ((handleSubscriptionCreated db s).2).webhookEvents = db.webhookEvents := by
  unfold handleSubscriptionCreated
  split
  · rfl
  · dsimp only
    split
    · rfl
    · split
      · rename_i er db2 heq
        have h1 := congrArg (fun p : Except ApiError Unit × Db => p.2.webhookEvents) heq
        simp only at h1
        rw [updatePlan_webhookEvents] at h1
        exact h1.symm
      · rename_i db2 heq
        have h1 := congrArg (fun p : Except ApiError Unit × Db => p.2.webhookEvents) heq
        simp only at h1
        rw [updatePlan_webhookEvents] at h1
        rw [updateSettings_webhookEvents]
        exact h1.symm

/-- The update reconciler never touches the webhook-event table. -/
theorem handleSubscriptionUpdated_webhookEvents (db : Db) (s : StripeSubscription) :
    ((handleSubscriptionUpdated db s).2).webhookEvents = db.webhookEvents := by
  unfold handleSubscriptionUpdated
  split <;> rfl

/-- The deletion reconciler never touches the webhook-event table. -/
theorem handleSubscriptionDeleted_webhookEvents (db : Db) (s : StripeSubscription) :
    ((handleSubscriptionDeleted db s).2).webhookEvents = db.webhookEvents := by
  unfold handleSubscriptionDeleted
  split
  · rfl
  · dsimp only
    split
    · rename_i er db2 heq
      have h1 := congrArg (fun p : Except ApiError Unit × Db => p.2.webhookEvents) heq
      simp only at h1
      rw [updatePlan_webhookEvents] at h1
      exact h1.symm
    · rename_i db2 heq
      have h1 := congrArg (fun p : Except ApiError Unit × Db => p.2.webhookEvents) heq
      simp only at h1
      rw [updatePlan_webhookEvents] at h1
      rw [updateSettings_webhookEvents]
      exact h1.symm

/-- The event-type dispatch never touches the webhook-event table. -/
theorem dispatchStripeEvent_webhookEvents (db : Db) (e : StripeEvent) :
    ((dispatchStripeEvent db e).2).webhookEvents = db.webhookEvents := by
  unfold dispatchStripeEvent
  split
  · exact handleSubscriptionCreated_webhookEvents db e.dataObject
  · exact handleSubscriptionUpdated_webhookEvents db e.dataObject
  · exact handleSubscriptionDeleted_webhookEvents db e.dataObject
  · rfl
  · rfl
  · rfl

/-- C4: for every webhook call that passes signature verification, the raw
event row (keyed by the provider event id, unprocessed) is persisted before
any dispatch and survives it; if the dispatch succeeds the handler resolves
and the persisted row is marked `processed = true`; if the dispatch throws,
the exception propagates to the caller and the row is left
`processed = false`. -/
theorem c4_webhook_event_lifecycle (secret : String) (e : StripeEvent) (db : Db) :
    ((dispatchStripeEvent (persistWebhookEvent db e) e).2).webhookEvents =
      { id := e.id, type := e.type, data := e.payload, processed := false } ::
        db.webhookEvents ∧
    (∀ db2, dispatchStripeEvent (persistWebhookEvent db e) e = (.ok (), db2) →
      handleStripeWebhook (some secret) (some e) db =
        (.ok (), markWebhookProcessed db2 e.id) ∧
      (findWebhookEvent (markWebhookProcessed db2 e.id) e.id).map
        (fun w => w.processed) = some true) ∧
    (∀ err db2, dispatchStripeEvent (persistWebhookEvent db e) e = (.error err, db2) →
      handleStripeWebhook (some secret) (some e) db = (.error err, db2) ∧
      (findWebhookEvent db2 e.id).map (fun w => w.processed) = some false) := by
  refine ⟨dispatchStripeEvent_webhookEvents (persistWebhookEvent db e) e, ?_, ?_⟩
  · intro db2 hdisp
    have hwe : db2.webhookEvents =
        { id := e.id, type := e.type, data := e.payload, processed := false } ::
          db.webhookEvents := by
      have h1 := congrArg (fun p : Except ApiError Unit × Db => p.2.webhookEvents) hdisp
      simp only at h1
      rw [dispatchStripeEvent_webhookEvents] at h1
      exact h1.symm
    constructor
    · unfold handleStripeWebhook
      dsimp only
      rw [hdisp]
    · unfold findWebhookEvent markWebhookProcessed
      dsimp only
      rw [hwe]
      simp [List.find?]
  · intro err db2 hdisp
    have hwe : db2.webhookEvents =
        { id := e.id, type := e.type, data := e.payload, processed := false } ::
          db.webhookEvents := by
      have h1 := congrArg (fun p : Except ApiError Unit × Db => p.2.webhookEvents) hdisp
      simp only at h1
      rw [dispatchStripeEvent_webhookEvents] at h1
      exact h1.symm
    constructor
    · unfold handleStripeWebhook
      dsimp only
      rw [hdisp]
    · unfold findWebhookEvent
      rw [hwe]
      simp [List.find?]

/-- A verified invoice event (dispatched as a logged no-op). -/
def stripeEventPay : StripeEvent :=
  { id := "evt_1", type := "invoice.payment_succeeded"
    dataObject := stripeSubDel, payload := "raw" }

/-- C4, witness: a verified invoice event is persisted and marked processed
once its (no-op) dispatch succeeds. -/
theorem c4_webhook_event_lifecycle_witness :
    handleStripeWebhook (some "whsec") (some stripeEventPay) dbEmpty =
      (.ok (), markWebhookProcessed (persistWebhookEvent dbEmpty stripeEventPay) "evt_1") ∧
    (findWebhookEvent (markWebhookProcessed (persistWebhookEvent dbEmpty stripeEventPay)
        "evt_1") "evt_1").map (fun w => w.processed) = some true := by
  exact (c4_webhook_event_lifecycle "whsec" stripeEventPay dbEmpty).2.1
    (persistWebhookEvent dbEmpty stripeEventPay) rfl
